import Mathlib

/-!
Shallow embedding of `otel_telemetry_tester_cli` (cli.py, sender.py):
the concurrent batch-generation harness.  Python machine state is made
explicit: the mutable `self.stats` dictionary becomes a `Stats` value
threaded through the generators, the random draws consumed by
`random.random()` / `random.choice` become explicit `RandDraws`
parameters, OpenTelemetry spans become `Span` records accumulating the
attribute/event/status mutations the source performs, and provider
shutdown becomes a list of attempted backend operations.
-/

/-- The CLI argument namespace (`argparse` result) as consumed by
`validate_args` and `TelemetrySender`.  `interval` is the float
`--interval` argument, modelled as a rational. -/
structure Args where
  endpoint : String
  protocol : String
  service_name : String
  all : Option Int
  trace_count : Int
  metric_count : Int
  log_count : Int
  tail : Bool
  interval : ℚ
  parallel : Nat
  verbose : Bool

/-- One kind's counter pair inside `self.stats` (`sent`, `errors`). -/
structure KindStats where
  sent : Nat
  errors : Nat
deriving DecidableEq

/-- `self.stats`: counters for the three telemetry kinds. -/
structure Stats where
  traces : KindStats
  metrics : KindStats
  logs : KindStats
deriving DecidableEq

/-- Initial `self.stats` value set in `TelemetrySender.__init__`. -/
def zeroStats : Stats :=
  { traces := ⟨0, 0⟩, metrics := ⟨0, 0⟩, logs := ⟨0, 0⟩ }

/-- OpenTelemetry span status codes. -/
inductive StatusCode
  | unset
  | ok
  | error
deriving DecidableEq

/-- `Status.is_ok` of the OpenTelemetry SDK: true for UNSET and OK. -/
def statusIsOk : StatusCode → Bool
  | .error => false
  | _ => true

/-- Span attribute values used by the generators. -/
inductive AttrVal
  | str (s : String)
  | nat (n : Nat)
  | bool (b : Bool)
deriving DecidableEq

/-- A span event added via `add_event`. -/
structure SpanEvent where
  name : String
  attributes : List (String × AttrVal)
deriving DecidableEq

/-- An OpenTelemetry span as mutated by `_generate_single_trace`:
name (updatable via `update_name`), recording state, status, attributes,
events and recorded exceptions. -/
structure Span where
  name : String
  recording : Bool
  status : StatusCode
  statusDescription : Option String
  attributes : List (String × AttrVal)
  events : List SpanEvent
  exceptions : List String
deriving DecidableEq

/-- A freshly started span (`start_as_current_span`): recording,
status UNSET, nothing attached yet. -/
def mkSpan (name : String) : Span :=
  { name := name, recording := true, status := .unset, statusDescription := none,
    attributes := [], events := [], exceptions := [] }

/-- The fault categories drawn by `random.choice(["client", "server", "timeout"])`. -/
inductive ErrorType
  | client
  | server
  | timeout
deriving DecidableEq

/-- String form of an `ErrorType`, as attached to the error event. -/
def errorTypeStr : ErrorType → String
  | .client => "client"
  | .server => "server"
  | .timeout => "timeout"

/-- The random draws `_generate_single_trace` may consume, in source
order: `random.random()` for the fault decision (line 262), the
`random.choice` result (line 263), and the `random.random()` draws for
the start (line 272) and middle (line 282) segments.  The last three
are consulted only when `has_error` is true, mirroring Python's
conditional evaluation. -/
structure RandDraws where
  hasErrorDraw : ℚ
  errorChoice : ErrorType
  startDraw : ℚ
  middleDraw : ℚ

/-- The spans produced by one `_generate_single_trace` call, plus the
boolean the worker function returns. -/
structure TraceResult where
  root : Span
  startSeg : Span
  middleSeg : Span
  endSeg : Span
  success : Bool
deriving DecidableEq

/-- `_generate_single_trace` (sender.py lines 258-301), normal path (no
unexpected exception): builds the root span and the nested start /
middle / end segments, applies the fault decision, updates
`self.stats['traces']` under the lock, and returns `not has_error`. -/
def generateSingleTrace (args : Args) (traceId : Nat) (d : RandDraws)
    (s : KindStats) : TraceResult × KindStats :=
  let hasError : Bool := decide (d.hasErrorDraw < mkRat 3 10)
  let root0 : Span :=
    { mkSpan ("/otel-tester-trace/" ++ args.protocol) with
      attributes := [("iteration", .nat traceId),
                     ("service.name", .str args.service_name),
                     ("trace.type", .str "segmented-parallel")] }
  let startSeg :=
    if hasError && decide (d.startDraw < mkRat 1 2) then
      let s0 := mkSpan "start"
      { s0 with
        status := .error, statusDescription := some "Error en inicialización",
        events := s0.events ++
          [⟨"error", [("error.type", .str (errorTypeStr d.errorChoice)),
                      ("error.message", .str "Fallo en el proceso de inicialización")]⟩] }
    else mkSpan "start"
  let middleSeg :=
    if hasError && decide (d.middleDraw < mkRat 7 10) then
      let m0 := mkSpan "middle"
      { m0 with
        exceptions := m0.exceptions ++ ["Error de procesamiento"],
        status := .error }
    else mkSpan "middle"
  let endSeg :=
    if hasError && !(startSeg.recording && statusIsOk startSeg.status) then
      let e0 := mkSpan "end"
      { e0 with
        attributes := e0.attributes ++ [("error.propagated", .bool true)],
        name := "end-failed" }
    else mkSpan "end"
  let s' := if hasError then { s with errors := s.errors + 1 }
            else { s with sent := s.sent + 1 }
  let root := if hasError then { root0 with status := .error } else root0
  ({ root := root, startSeg := startSeg, middleSeg := middleSeg,
     endSeg := endSeg, success := !hasError }, s')

/-- Whether a span carries the `error.propagated` attribute. -/
def hasPropagated (sp : Span) : Bool :=
  sp.attributes.any (fun kv => kv.1 == "error.propagated")

/-- Behaviour of one trace-generation task submitted to the pool:
either `_generate_single_trace` runs its normal path with the given
random draws, or an unexpected exception is raised during emission
(the `except` branch at sender.py lines 303-307). -/
inductive TraceTaskInput
  | normal (d : RandDraws)
  | raises

/-- One batch invocation of `generate_traces`: whether the surrounding
`try` fails at the harness level (tracer/executor setup, the outer
`except` at lines 329-331), and the per-task behaviours. -/
structure TraceRun where
  critical : Bool
  tasks : Nat → TraceTaskInput

/-- One batch invocation of `generate_metrics` / `generate_logs`:
harness-level failure flag plus, per task, whether the task body
raises (caught inside the task, counted as an error). -/
structure ExecRun where
  critical : Bool
  taskRaises : Nat → Bool

/-- One trace task as observed by the stats dictionary: the normal
path defers to `generateSingleTrace`; the exception path increments
`errors` under the lock and returns `False` (lines 303-307). -/
def traceTaskRun (args : Args) (i : Nat) (inp : TraceTaskInput)
    (s : KindStats) : KindStats × Bool :=
  match inp with
  | .normal d =>
    let (r, s') := generateSingleTrace args i d s
    (s', r.success)
  | .raises => ({ s with errors := s.errors + 1 }, false)

/-- Folds the trace tasks of one batch over the stats, in completion
order (`as_completed` yields tasks in an arbitrary order; the indices
list is that order). -/
def runTraceTasks (args : Args) (f : Nat → TraceTaskInput) :
    List Nat → KindStats → KindStats
  | [], s => s
  | i :: rest, s => runTraceTasks args f rest (traceTaskRun args i (f i) s).1

/-- `generate_traces` (sender.py lines 251-331): on the normal path
submits `trace_count` tasks, folds every task's stats update, and
returns `True`; a harness-level exception reaches the outer `except`
and returns `False`. -/
def generateTraces (args : Args) (run : TraceRun) (s : Stats) : Stats × Bool :=
  if run.critical then (s, false)
  else
    ({ s with traces :=
        runTraceTasks args run.tasks (List.range args.trace_count.toNat) s.traces },
     true)

/-- `_generate_single_metric` (lines 341-351): `counter.add` either
succeeds (`sent += 1`, return `True`) or raises, caught in the task
(`errors += 1`, return `False`). -/
def metricTaskRun (raises : Bool) (s : KindStats) : KindStats × Bool :=
  if raises then ({ s with errors := s.errors + 1 }, false)
  else ({ s with sent := s.sent + 1 }, true)

/-- Folds the metric tasks of one batch over the stats. -/
def runMetricTasks (f : Nat → Bool) : List Nat → KindStats → KindStats
  | [], s => s
  | i :: rest, s => runMetricTasks f rest (metricTaskRun (f i) s).1

/-- `generate_metrics` (lines 333-370). -/
def generateMetrics (args : Args) (run : ExecRun) (s : Stats) : Stats × Bool :=
  if run.critical then (s, false)
  else
    ({ s with metrics :=
        runMetricTasks run.taskRaises (List.range args.metric_count.toNat) s.metrics },
     true)

/-- The `log_levels` list of `generate_logs` (line 376). -/
inductive LogLevel
  | info
  | warning
  | error
  | debug
deriving DecidableEq, Inhabited

/-- The level cycle `[logging.INFO, logging.WARNING, logging.ERROR, logging.DEBUG]`. -/
def logLevels : List LogLevel := [.info, .warning, .error, .debug]

/-- The `messages` list of `generate_logs` (lines 379-384). -/
def logMessages : List String :=
  ["Inicio de proceso paralelo",
   "Advertencia de carga elevada",
   "Error crítico en hilo",
   "Conexion a base de datos"]

/-- One emitted log record, as passed to `logger.log` by
`_generate_single_log`. -/
structure LogRecord where
  level : LogLevel
  message : String
  log_id : Nat
  service : String
  protocol : String
deriving DecidableEq

/-- The record built by `_generate_single_log` (lines 386-398):
level `log_levels[log_id % 4]`, message `messages[log_id % 3]`, plus
the structured-data fields. -/
def generateSingleLog (args : Args) (log_id : Nat) : LogRecord :=
  { level := logLevels[log_id % 4]!,
    message := logMessages[log_id % 3]!,
    log_id := log_id,
    service := args.service_name,
    protocol := args.protocol }

/-- `_generate_single_log` as observed by the stats: emitting the
record then `sent += 1` / on exception `errors += 1`. -/
def logTaskRun (args : Args) (i : Nat) (raises : Bool)
    (s : KindStats) : KindStats × Bool :=
  if raises then ({ s with errors := s.errors + 1 }, false)
  else
    let _record := generateSingleLog args i
    ({ s with sent := s.sent + 1 }, true)

/-- Folds the log tasks of one batch over the stats. -/
def runLogTasks (args : Args) (f : Nat → Bool) : List Nat → KindStats → KindStats
  | [], s => s
  | i :: rest, s => runLogTasks args f rest (logTaskRun args i (f i) s).1

/-- `generate_logs` (lines 372-429). -/
def generateLogs (args : Args) (run : ExecRun) (s : Stats) : Stats × Bool :=
  if run.critical then (s, false)
  else
    ({ s with logs :=
        runLogTasks args run.taskRaises (List.range args.log_count.toNat) s.logs },
     true)

/-- `_generate_single_batch` (sender.py lines 238-249): runs each kind
with count > 0 in the order traces, metrics, logs, collects their
boolean results, and raises `RuntimeError` iff some result is falsy
and tail mode is off. -/
def generateSingleBatch (args : Args) (tr : TraceRun) (mr lr : ExecRun)
    (s : Stats) : Stats × Except String Unit :=
  let step1 :=
    if 0 < args.trace_count then
      let t := generateTraces args tr s
      (t.1, [t.2])
    else (s, ([] : List Bool))
  let step2 :=
    if 0 < args.metric_count then
      let t := generateMetrics args mr step1.1
      (t.1, step1.2 ++ [t.2])
    else step1
  let step3 :=
    if 0 < args.log_count then
      let t := generateLogs args lr step2.1
      (t.1, step2.2 ++ [t.2])
    else step2
  (step3.1,
   if !step3.2.all id && !args.tail then
     .error "Falló uno o más tipos de telemetría"
   else .ok ())

/-- `_run_continuous_mode` (sender.py lines 229-236) with the
signal handler (lines 201-204) made explicit.  `sig k = true` means a
SIGINT/SIGTERM arrives during cycle `k` (its batch or its sleep); the
handler only clears `self.running`, which the loop reads at the top of
each cycle, so a cycle in progress is never interrupted.  Returns the
number of completed batch cycles; `fuel` bounds the unrolling of the
`while` loop. -/
def runContinuousMode (sig : Nat → Bool) : Nat → Nat → Bool → Nat
  | 0, cycle, _ => cycle
  | fuel + 1, cycle, running =>
    if running then runContinuousMode sig fuel (cycle + 1) (running && !sig cycle)
    else cycle

/-- The provider flush/close operations `shutdown` may perform
(sender.py lines 464-475), in their source order. -/
inductive ShutdownOp
  | traceShutdown
  | metricShutdown
  | metricFlush
  | logFlush
  | logShutdown
deriving DecidableEq

/-- The operations `shutdown` runs for a given configuration, in the
order of the source: trace provider, then metric provider, then log
provider, each guarded by its kind's count. -/
def shutdownOps (args : Args) : List ShutdownOp :=
  (if 0 < args.trace_count then [ShutdownOp.traceShutdown] else []) ++
  (if 0 < args.metric_count then [ShutdownOp.metricShutdown, ShutdownOp.metricFlush] else []) ++
  (if 0 < args.log_count then [ShutdownOp.logFlush, ShutdownOp.logShutdown] else [])

/-- Runs the shutdown operations inside the single `try` block:
`fails op = true` means that backend call raises.  Returns the list of
operations actually attempted and whether an exception was caught by
the surrounding `except` (which only prints).  After the first failing
operation nothing further in the block executes. -/
def runShutdownOps (fails : ShutdownOp → Bool) : List ShutdownOp → List ShutdownOp × Bool
  | [] => ([], false)
  | op :: rest =>
    if fails op then ([op], true)
    else
      let r := runShutdownOps fails rest
      (op :: r.1, r.2)

/-- `TelemetrySender.shutdown` (sender.py lines 455-481).  The state
is the `self._shutdown` flag (`hasattr` check); returns the new flag
and the provider operations attempted.  Any exception from the ops is
caught and logged, never propagated. -/
def senderShutdown (args : Args) (fails : ShutdownOp → Bool) (shutdownFlag : Bool) :
    Bool × List ShutdownOp :=
  if shutdownFlag then (shutdownFlag, [])
  else (true, (runShutdownOps fails (shutdownOps args)).1)

/-- `validate_args` (cli.py lines 47-75): applies `--all` to the
unspecified counts, accumulates error messages for the three checks,
normalizes an http endpoint, and raises `ValueError` with the joined
messages iff any check failed. -/
def validateArgs (a : Args) : Except String Args :=
  let withAll :=
    match a.all with
    | none => (([] : List String), a)
    | some n =>
      let msgs := if n < 0 then ["El valor de --all debe ser ≥ 0"] else []
      (msgs,
       { a with
         trace_count := if a.trace_count = 0 then n else a.trace_count,
         metric_count := if a.metric_count = 0 then n else a.metric_count,
         log_count := if a.log_count = 0 then n else a.log_count })
  let a1 := withAll.2
  let msgs2 :=
    if !(decide (0 < a1.trace_count) || decide (0 < a1.metric_count) ||
         decide (0 < a1.log_count)) then
      withAll.1 ++ ["Debe especificar al menos un tipo de telemetría con count > 0"]
    else withAll.1
  let msgs3 :=
    if a1.tail && decide (a1.interval ≤ 0) then
      msgs2 ++ ["El intervalo debe ser mayor que 0 en modo tail"]
    else msgs2
  let a2 :=
    if a1.protocol == "http" &&
       !(a1.endpoint.startsWith "http://" || a1.endpoint.startsWith "https://") then
      { a1 with endpoint := "http://" ++ a1.endpoint }
    else a1
  if msgs3.isEmpty then .ok a2
  else .error (String.intercalate "\x0a" msgs3)

/-- `TelemetrySender._validate_counts` (sender.py lines 67-72), called
from `__init__` before any provider is set up. -/
def validateCounts (a : Args) : Except String Unit :=
  if !(decide (0 < a.trace_count) || decide (0 < a.metric_count) ||
       decide (0 < a.log_count)) then
    .error "Debe especificar al menos un tipo de telemetría con count > 0"
  else .ok ()

/-- Constructing a harness from a configuration, as `main` (cli.py
lines 77-89) does before any generation work: `validate_args`, then
the `TelemetrySender` constructor, whose first step is
`_validate_counts`; provider setup follows validation and emits no
telemetry records. -/
def configureHarness (a : Args) : Except String Args :=
  match validateArgs a with
  | .error e => .error e
  | .ok a1 =>
    match validateCounts a1 with
    | .error e => .error e
    | .ok _ => .ok a1

/-- Every trace task, normal or raising, adds exactly one to
`sent + errors`. -/
lemma traceTaskRun_sum (args : Args) (i : Nat) (inp : TraceTaskInput) (s : KindStats) :
    (traceTaskRun args i inp s).1.sent + (traceTaskRun args i inp s).1.errors =
      s.sent + s.errors + 1 := by
  cases inp with
  | raises => simp [traceTaskRun]; omega
  | normal d =>
    simp only [traceTaskRun, generateSingleTrace]
    by_cases h : d.hasErrorDraw < mkRat 3 10 <;> simp [h] <;> omega

/-- Folding a list of trace tasks adds exactly the list's length to
`sent + errors`, whatever the completion order. -/
lemma runTraceTasks_sum (args : Args) (f : Nat → TraceTaskInput) :
    ∀ (l : List Nat) (s : KindStats),
      (runTraceTasks args f l s).sent + (runTraceTasks args f l s).errors =
        s.sent + s.errors + l.length := by
  intro l
  induction l with
  | nil => intro s; simp [runTraceTasks]
  | cons i rest ih =>
    intro s
    simp only [runTraceTasks, List.length_cons]
    rw [ih]
    have := traceTaskRun_sum args i (f i) s
    omega

/-- Every metric task adds exactly one to `sent + errors`. -/
lemma metricTaskRun_sum (b : Bool) (s : KindStats) :
    (metricTaskRun b s).1.sent + (metricTaskRun b s).1.errors =
      s.sent + s.errors + 1 := by
  cases b <;> simp [metricTaskRun] <;> omega

lemma runMetricTasks_sum (f : Nat → Bool) :
    ∀ (l : List Nat) (s : KindStats),
      (runMetricTasks f l s).sent + (runMetricTasks f l s).errors =
        s.sent + s.errors + l.length := by
  intro l
  induction l with
  | nil => intro s; simp [runMetricTasks]
  | cons i rest ih =>
    intro s
    simp only [runMetricTasks, List.length_cons]
    rw [ih]
    have := metricTaskRun_sum (f i) s
    omega

/-- Every log task adds exactly one to `sent + errors`. -/
lemma logTaskRun_sum (args : Args) (i : Nat) (b : Bool) (s : KindStats) :
    (logTaskRun args i b s).1.sent + (logTaskRun args i b s).1.errors =
      s.sent + s.errors + 1 := by
  cases b <;> simp [logTaskRun] <;> omega

lemma runLogTasks_sum (args : Args) (f : Nat → Bool) :
    ∀ (l : List Nat) (s : KindStats),
      (runLogTasks args f l s).sent + (runLogTasks args f l s).errors =
        s.sent + s.errors + l.length := by
  intro l
  induction l with
  | nil => intro s; simp [runLogTasks]
  | cons i rest ih =>
    intro s
    simp only [runLogTasks, List.length_cons]
    rw [ih]
    have := logTaskRun_sum args i (f i) s
    omega

/-- On the non-critical path, `generate_traces` only rewrites the
traces bucket. -/
lemma generateTraces_fst (args : Args) (run : TraceRun) (s : Stats)
    (hc : run.critical = false) :
    (generateTraces args run s).1 =
      { s with traces :=
          runTraceTasks args run.tasks (List.range args.trace_count.toNat) s.traces } := by
  simp [generateTraces, hc]

lemma generateMetrics_fst (args : Args) (run : ExecRun) (s : Stats)
    (hc : run.critical = false) :
    (generateMetrics args run s).1 =
      { s with metrics :=
          runMetricTasks run.taskRaises (List.range args.metric_count.toNat) s.metrics } := by
  simp [generateMetrics, hc]

lemma generateLogs_fst (args : Args) (run : ExecRun) (s : Stats)
    (hc : run.critical = false) :
    (generateLogs args run s).1 =
      { s with logs :=
          runLogTasks args run.taskRaises (List.range args.log_count.toNat) s.logs } := by
  simp [generateLogs, hc]

/-- A kind whose count is not positive leaves the stats unchanged even
when its generator is invoked. -/
lemma generateTraces_fst_nonpos (args : Args) (run : TraceRun) (s : Stats)
    (h : ¬ 0 < args.trace_count) : (generateTraces args run s).1 = s := by
  cases hc : run.critical with
  | true => simp [generateTraces, hc]
  | false =>
    simp [generateTraces, hc, Int.toNat_of_nonpos (le_of_not_lt h), runTraceTasks]

lemma generateMetrics_fst_nonpos (args : Args) (run : ExecRun) (s : Stats)
    (h : ¬ 0 < args.metric_count) : (generateMetrics args run s).1 = s := by
  cases hc : run.critical with
  | true => simp [generateMetrics, hc]
  | false =>
    simp [generateMetrics, hc, Int.toNat_of_nonpos (le_of_not_lt h), runMetricTasks]

lemma generateLogs_fst_nonpos (args : Args) (run : ExecRun) (s : Stats)
    (h : ¬ 0 < args.log_count) : (generateLogs args run s).1 = s := by
  cases hc : run.critical with
  | true => simp [generateLogs, hc]
  | false =>
    simp [generateLogs, hc, Int.toNat_of_nonpos (le_of_not_lt h), runLogTasks]

/-- The stats after one batch are those of running the three kind
generators in order, independently of whether the batch then raises. -/
lemma generateSingleBatch_fst (args : Args) (tr : TraceRun) (mr lr : ExecRun) (s : Stats) :
    (generateSingleBatch args tr mr lr s).1 =
      (generateLogs args lr
        (generateMetrics args mr (generateTraces args tr s).1).1).1 := by
  unfold generateSingleBatch
  by_cases ht : 0 < args.trace_count <;>
    by_cases hm : 0 < args.metric_count <;>
      by_cases hl : 0 < args.log_count <;>
        simp [ht, hm, hl, generateTraces_fst_nonpos, generateMetrics_fst_nonpos,
              generateLogs_fst_nonpos]

/-- C1: for every telemetry kind enabled with requested count N, after
one batch cycle completes, that kind's `sent` counter plus its `errors`
counter equals exactly N: every generation task contributes exactly one
increment, whether it returns normally or raises, with no lost and no
duplicated updates (a disabled kind keeps 0 = its requested count's
nonnegative part). -/
theorem batch_sent_plus_errors (args : Args) (tr : TraceRun) (mr lr : ExecRun)
    (htr : tr.critical = false) (hmr : mr.critical = false) (hlr : lr.critical = false) :
    (generateSingleBatch args tr mr lr zeroStats).1.traces.sent +
        (generateSingleBatch args tr mr lr zeroStats).1.traces.errors =
      args.trace_count.toNat ∧
    (generateSingleBatch args tr mr lr zeroStats).1.metrics.sent +
        (generateSingleBatch args tr mr lr zeroStats).1.metrics.errors =
      args.metric_count.toNat ∧
    (generateSingleBatch args tr mr lr zeroStats).1.logs.sent +
        (generateSingleBatch args tr mr lr zeroStats).1.logs.errors =
      args.log_count.toNat := by
  rw [generateSingleBatch_fst,
      generateTraces_fst args tr zeroStats htr,
      generateMetrics_fst args mr _ hmr,
      generateLogs_fst args lr _ hlr]
  refine ⟨?_, ?_, ?_⟩
  · have := runTraceTasks_sum args tr.tasks (List.range args.trace_count.toNat)
      zeroStats.traces
    simpa [zeroStats] using this
  · have := runMetricTasks_sum mr.taskRaises (List.range args.metric_count.toNat)
      zeroStats.metrics
    simpa [zeroStats] using this
  · have := runLogTasks_sum args lr.taskRaises (List.range args.log_count.toNat)
      zeroStats.logs
    simpa [zeroStats] using this

/-- Witness for C1 at a concrete configuration: 2 traces (all raising),
1 metric (raising), 3 logs (all normal). -/
theorem batch_sent_plus_errors_witness :
    (generateSingleBatch
          ⟨"localhost:4317", "grpc", "svc", none, 2, 1, 3, false, 1, 4, false⟩
          ⟨false, fun _ => .raises⟩ ⟨false, fun _ => true⟩ ⟨false, fun _ => false⟩
          zeroStats).1.traces.sent +
        (generateSingleBatch
          ⟨"localhost:4317", "grpc", "svc", none, 2, 1, 3, false, 1, 4, false⟩
          ⟨false, fun _ => .raises⟩ ⟨false, fun _ => true⟩ ⟨false, fun _ => false⟩
          zeroStats).1.traces.errors = 2 ∧
    (generateSingleBatch
          ⟨"localhost:4317", "grpc", "svc", none, 2, 1, 3, false, 1, 4, false⟩
          ⟨false, fun _ => .raises⟩ ⟨false, fun _ => true⟩ ⟨false, fun _ => false⟩
          zeroStats).1.metrics.sent +
        (generateSingleBatch
          ⟨"localhost:4317", "grpc", "svc", none, 2, 1, 3, false, 1, 4, false⟩
          ⟨false, fun _ => .raises⟩ ⟨false, fun _ => true⟩ ⟨false, fun _ => false⟩
          zeroStats).1.metrics.errors = 1 ∧
    (generateSingleBatch
          ⟨"localhost:4317", "grpc", "svc", none, 2, 1, 3, false, 1, 4, false⟩
          ⟨false, fun _ => .raises⟩ ⟨false, fun _ => true⟩ ⟨false, fun _ => false⟩
          zeroStats).1.logs.sent +
        (generateSingleBatch
          ⟨"localhost:4317", "grpc", "svc", none, 2, 1, 3, false, 1, 4, false⟩
          ⟨false, fun _ => .raises⟩ ⟨false, fun _ => true⟩ ⟨false, fun _ => false⟩
          zeroStats).1.logs.errors = 3 :=
  batch_sent_plus_errors
    ⟨"localhost:4317", "grpc", "svc", none, 2, 1, 3, false, 1, 4, false⟩
    ⟨false, fun _ => .raises⟩ ⟨false, fun _ => true⟩ ⟨false, fun _ => false⟩
    rfl rfl rfl

/-- C2 counterexample: with `hasErrorDraw = 0` the fault injector
decides `has_error = true` (0 < 3/10) and no exception occurs, yet the
worker returns `success = false` and counts the trace in the `errors`
bucket — not, as claimed, `success = true` counted as a successful
harness operation. -/
theorem trace_worker_fault_counterexample :
    ((0 : ℚ) < mkRat 3 10) ∧
    (generateSingleTrace
        ⟨"localhost:4317", "grpc", "svc", none, 1, 0, 0, false, 1, 4, false⟩
        0 ⟨0, .client, 1, 1⟩ ⟨0, 0⟩).1.success = false ∧
    (generateSingleTrace
        ⟨"localhost:4317", "grpc", "svc", none, 1, 0, 0, false, 1, 4, false⟩
        0 ⟨0, .client, 1, 1⟩ ⟨0, 0⟩).2 = ⟨0, 1⟩ := by
  refine ⟨by decide, by decide, by decide⟩

/-- C2 amended: the per-trace worker returns `success = false` both on
an unexpected exception and on the intentionally simulated fault path
(`has_error = true`); a simulated fault is counted in the `errors`
bucket, a non-faulty trace in the `sent` bucket. -/
theorem trace_worker_success_iff_no_fault (args : Args) (i : Nat) (d : RandDraws)
    (s : KindStats) :
    (generateSingleTrace args i d s).1.success =
      !decide (d.hasErrorDraw < mkRat 3 10) ∧
    (generateSingleTrace args i d s).2.errors =
      s.errors + (if (generateSingleTrace args i d s).1.success then 0 else 1) ∧
    (generateSingleTrace args i d s).2.sent =
      s.sent + (if (generateSingleTrace args i d s).1.success then 1 else 0) := by
  by_cases h : d.hasErrorDraw < mkRat 3 10 <;> simp [generateSingleTrace, h]

/-- C3: for a trace whose fault decision is `has_error = false`, no
segment is marked failed: every segment's status stays OK (UNSET), no
event or exception is recorded on any segment, the end segment carries
no propagated-error attribute and keeps its name, regardless of the
other random draws. -/
theorem no_fault_no_failed_segment (args : Args) (i : Nat) (d : RandDraws)
    (s : KindStats) (h : ¬ d.hasErrorDraw < mkRat 3 10) :
    let r := (generateSingleTrace args i d s).1
    statusIsOk r.startSeg.status = true ∧ r.startSeg.events = [] ∧
      r.startSeg.exceptions = [] ∧
    statusIsOk r.middleSeg.status = true ∧ r.middleSeg.events = [] ∧
      r.middleSeg.exceptions = [] ∧
    statusIsOk r.endSeg.status = true ∧ r.endSeg.events = [] ∧
      r.endSeg.exceptions = [] ∧
    hasPropagated r.endSeg = false ∧ r.endSeg.name = "end" := by
  simp [generateSingleTrace, h, mkSpan, statusIsOk, hasPropagated]

/-- Witness for C3: a non-faulty draw (hasErrorDraw = 1) with both
segment draws at 0, which would fail the segments were the trace
faulty. -/
theorem no_fault_no_failed_segment_witness :
    (¬ (1 : ℚ) < mkRat 3 10) ∧
    (let r := (generateSingleTrace
        ⟨"localhost:4317", "grpc", "svc", none, 1, 0, 0, false, 1, 4, false⟩
        0 ⟨1, .client, 0, 0⟩ ⟨0, 0⟩).1
     statusIsOk r.startSeg.status = true ∧ r.startSeg.events = [] ∧
       r.startSeg.exceptions = [] ∧
     statusIsOk r.middleSeg.status = true ∧ r.middleSeg.events = [] ∧
       r.middleSeg.exceptions = [] ∧
     statusIsOk r.endSeg.status = true ∧ r.endSeg.events = [] ∧
       r.endSeg.exceptions = [] ∧
     hasPropagated r.endSeg = false ∧ r.endSeg.name = "end") :=
  ⟨by decide,
   no_fault_no_failed_segment
     ⟨"localhost:4317", "grpc", "svc", none, 1, 0, 0, false, 1, 4, false⟩
     0 ⟨1, .client, 0, 0⟩ ⟨0, 0⟩ (by decide)⟩

/-- C8 counterexample: a faulty trace (`hasErrorDraw = 0`) whose start
segment stays OK (`startDraw = 1`) but whose middle segment fails
(`middleDraw = 0`): an ancestor of the end segment is not OK, yet the
end segment carries no propagated-error attribute and is not renamed —
the code consults only the start segment's status. -/
theorem end_propagation_counterexample :
    ((0 : ℚ) < mkRat 3 10) ∧
    statusIsOk (generateSingleTrace
        ⟨"localhost:4317", "grpc", "svc", none, 1, 0, 0, false, 1, 4, false⟩
        0 ⟨0, .client, 1, 0⟩ ⟨0, 0⟩).1.middleSeg.status = false ∧
    hasPropagated (generateSingleTrace
        ⟨"localhost:4317", "grpc", "svc", none, 1, 0, 0, false, 1, 4, false⟩
        0 ⟨0, .client, 1, 0⟩ ⟨0, 0⟩).1.endSeg = false ∧
    (generateSingleTrace
        ⟨"localhost:4317", "grpc", "svc", none, 1, 0, 0, false, 1, 4, false⟩
        0 ⟨0, .client, 1, 0⟩ ⟨0, 0⟩).1.endSeg.name = "end" := by
  refine ⟨by decide, by decide, by decide, by decide⟩

/-- C8 amended: for every generated trace, the end segment carries the
propagated-error attribute (and is renamed `end-failed`) exactly when
the trace is faulty and the *start* segment is not in an OK state; a
middle-segment failure alone never propagates to the end segment. -/
theorem end_propagation_start_only (args : Args) (i : Nat) (d : RandDraws)
    (s : KindStats) :
    hasPropagated (generateSingleTrace args i d s).1.endSeg =
      (decide (d.hasErrorDraw < mkRat 3 10) &&
        !statusIsOk (generateSingleTrace args i d s).1.startSeg.status) ∧
    (generateSingleTrace args i d s).1.endSeg.name =
      (if (decide (d.hasErrorDraw < mkRat 3 10) &&
            !statusIsOk (generateSingleTrace args i d s).1.startSeg.status) then
        "end-failed" else "end") := by
  by_cases h1 : d.hasErrorDraw < mkRat 3 10 <;>
    by_cases h2 : d.startDraw < mkRat 1 2 <;>
      simp [generateSingleTrace, h1, h2, mkSpan, statusIsOk, hasPropagated]

/-- `generate_traces` returns `True` unless the harness-level `try`
fails. -/
lemma generateTraces_snd (args : Args) (run : TraceRun) (s : Stats) :
    (generateTraces args run s).2 = !run.critical := by
  cases h : run.critical <;> simp [generateTraces, h]

lemma generateMetrics_snd (args : Args) (run : ExecRun) (s : Stats) :
    (generateMetrics args run s).2 = !run.critical := by
  cases h : run.critical <;> simp [generateMetrics, h]

lemma generateLogs_snd (args : Args) (run : ExecRun) (s : Stats) :
    (generateLogs args run s).2 = !run.critical := by
  cases h : run.critical <;> simp [generateLogs, h]

/-- C10: the record emitted for log index i carries the level at
position i mod 4 of the four-level cycle INFO, WARNING, ERROR, DEBUG
and the message at position i mod 3 of the message list; since the
message index is taken modulo 3 over the four-element list, the fourth
message is never emitted for any index. -/
theorem log_level_message_cycle (args : Args) (i : Nat) :
    (generateSingleLog args i).level = logLevels[i % 4]! ∧
    (generateSingleLog args i).message = logMessages[i % 3]! ∧
    (generateSingleLog args i).message ∈
      ["Inicio de proceso paralelo", "Advertencia de carga elevada",
       "Error crítico en hilo"] ∧
    (generateSingleLog args i).message ≠ "Conexion a base de datos" := by
  have h3 : i % 3 = 0 ∨ i % 3 = 1 ∨ i % 3 = 2 := by omega
  refine ⟨rfl, rfl, ?_, ?_⟩ <;>
    rcases h3 with h | h | h <;> simp [generateSingleLog, logMessages, h]

/-- C7: the batch raises `RuntimeError` exactly when some enabled
kind's generator reports a harness-level failure and tail mode is off
(in tail mode nothing is raised), and in either mode the stats it
leaves behind are those of running all enabled kinds to completion,
i.e. the failure is only acted on after the remaining kinds of the
batch have executed. -/
theorem batch_failure_mode (args : Args) (tr : TraceRun) (mr lr : ExecRun) (s : Stats) :
    ((generateSingleBatch args tr mr lr s).2 = Except.ok () ↔
      (args.tail = true ∨
        ¬((0 < args.trace_count ∧ tr.critical = true) ∨
          (0 < args.metric_count ∧ mr.critical = true) ∨
          (0 < args.log_count ∧ lr.critical = true)))) ∧
    (generateSingleBatch args tr mr lr s).1 =
      (generateLogs args lr
        (generateMetrics args mr (generateTraces args tr s).1).1).1 := by
  refine ⟨?_, generateSingleBatch_fst args tr mr lr s⟩
  by_cases ht : 0 < args.trace_count <;>
    by_cases hm : 0 < args.metric_count <;>
      by_cases hl : 0 < args.log_count <;>
        cases htail : args.tail <;>
          cases hc1 : tr.critical <;>
            cases hc2 : mr.critical <;>
              cases hc3 : lr.critical <;>
                simp [generateSingleBatch, ht, hm, hl, htail, hc1, hc2, hc3,
                      generateTraces_snd, generateMetrics_snd, generateLogs_snd]

/-- If no operation in the block fails, the whole block runs, in
order. -/
lemma runShutdownOps_all_ok (fails : ShutdownOp → Bool) :
    ∀ l : List ShutdownOp, (∀ op ∈ l, fails op = false) →
      (runShutdownOps fails l).1 = l := by
  intro l
  induction l with
  | nil => intro _; rfl
  | cons op rest ih =>
    intro h
    have hop := h op (List.mem_cons_self op rest)
    simp [runShutdownOps, hop,
          ih (fun p hp => h p (List.mem_cons_of_mem _ hp))]

/-- The block stops at the first failing operation: everything after
it inside the `try` is skipped. -/
lemma runShutdownOps_first_fail (fails : ShutdownOp → Bool) :
    ∀ (pre : List ShutdownOp) (op : ShutdownOp) (post : List ShutdownOp),
      (∀ p ∈ pre, fails p = false) → fails op = true →
      (runShutdownOps fails (pre ++ op :: post)).1 = pre ++ [op] := by
  intro pre
  induction pre with
  | nil => intro op post _ hop; simp [runShutdownOps, hop]
  | cons q rest ih =>
    intro op post hpre hop
    have hq : fails q = false := hpre q (List.mem_cons_self q rest)
    simp [runShutdownOps, hq,
          ih op post (fun p hp => hpre p (List.mem_cons_of_mem _ hp)) hop]

/-- C4 counterexample: with all three providers initialized and the
trace provider's shutdown raising, only the trace operation is
attempted; the metric and log providers — although initialized and
listed in `shutdownOps` — are never attempted, because one `try`
block wraps all three. -/
theorem shutdown_abort_counterexample :
    (senderShutdown ⟨"localhost:4317", "grpc", "svc", none, 1, 1, 1, false, 1, 4, false⟩
        (fun op => decide (op = ShutdownOp.traceShutdown)) false).2 =
      [ShutdownOp.traceShutdown] ∧
    ShutdownOp.metricShutdown ∈
      shutdownOps ⟨"localhost:4317", "grpc", "svc", none, 1, 1, 1, false, 1, 4, false⟩ ∧
    ShutdownOp.metricShutdown ∉
      (senderShutdown ⟨"localhost:4317", "grpc", "svc", none, 1, 1, 1, false, 1, 4, false⟩
        (fun op => decide (op = ShutdownOp.traceShutdown)) false).2 := by
  refine ⟨by decide, by decide, by decide⟩

/-- C4 amended: shutdown attempts the initialized providers' flush and
close operations in the fixed order trace, metric, log; an exception
from one operation is caught and logged, never propagated (the flag is
still set and the call returns), but it aborts the sequence: the
operations after the first failing one are NOT attempted. -/
theorem shutdown_first_failure_aborts (args : Args) (fails : ShutdownOp → Bool)
    (flag : Bool) (h : flag = false) :
    ((∀ op ∈ shutdownOps args, fails op = false) →
      (senderShutdown args fails flag).2 = shutdownOps args) ∧
    (senderShutdown args fails flag).1 = true ∧
    (∀ pre op post, shutdownOps args = pre ++ op :: post →
      (∀ p ∈ pre, fails p = false) → fails op = true →
      (senderShutdown args fails flag).2 = pre ++ [op]) := by
  subst h
  refine ⟨?_, rfl, ?_⟩
  · intro hall
    simp [senderShutdown, runShutdownOps_all_ok fails _ hall]
  · intro pre op post heq hpre hop
    simp [senderShutdown, heq, runShutdownOps_first_fail fails pre op post hpre hop]

/-- Witness for C4 (amended): a run with every provider enabled and no
failing operation sets the shutdown flag. -/
theorem shutdown_first_failure_aborts_witness :
    (senderShutdown ⟨"localhost:4317", "grpc", "svc", none, 1, 1, 1, false, 1, 4, false⟩
      (fun _ => false) false).1 = true :=
  (shutdown_first_failure_aborts
    ⟨"localhost:4317", "grpc", "svc", none, 1, 1, 1, false, 1, 4, false⟩
    (fun _ => false) false rfl).2.1

/-- C5: shutdown is idempotent in sequence: a first call from a fresh
state sets the `_shutdown` flag and performs the provider operations
once; a second call observes the flag, performs no provider operation,
raises nothing, and leaves the state unchanged. -/
theorem shutdown_idempotent (args : Args) (fails : ShutdownOp → Bool)
    (flag : Bool) (h : flag = false) :
    (senderShutdown args fails flag).1 = true ∧
    (senderShutdown args fails flag).2 = (runShutdownOps fails (shutdownOps args)).1 ∧
    (senderShutdown args fails (senderShutdown args fails flag).1).2 = [] ∧
    (senderShutdown args fails (senderShutdown args fails flag).1).1 =
      (senderShutdown args fails flag).1 := by
  subst h
  exact ⟨rfl, rfl, rfl, rfl⟩

/-- Witness for C5 at a concrete run. -/
theorem shutdown_idempotent_witness :
    (senderShutdown ⟨"localhost:4317", "grpc", "svc", none, 1, 0, 2, false, 1, 4, false⟩
      (fun _ => false)
      (senderShutdown ⟨"localhost:4317", "grpc", "svc", none, 1, 0, 2, false, 1, 4, false⟩
        (fun _ => false) false).1).2 = [] :=
  (shutdown_idempotent ⟨"localhost:4317", "grpc", "svc", none, 1, 0, 2, false, 1, 4, false⟩
    (fun _ => false) false rfl).2.2.1

/-- Generalized over the starting cycle index: if the first signal
arrives during cycle m+k, the loop completes exactly through cycle m+k
and starts no later cycle. -/
lemma runContinuousMode_stops (sig : Nat → Bool) :
    ∀ (k m fuel : Nat), sig (m + k) = true →
      (∀ j, j < k → sig (m + j) = false) → k + 2 ≤ fuel →
      runContinuousMode sig fuel m true = m + k + 1 := by
  intro k
  induction k with
  | zero =>
    intro m fuel hsig _ hfuel
    obtain ⟨f, rfl⟩ : ∃ f, fuel = f + 2 := ⟨fuel - 2, by omega⟩
    simp only [Nat.add_zero] at hsig
    simp [runContinuousMode, hsig]
  | succ k ih =>
    intro m fuel hsig hprev hfuel
    obtain ⟨f, rfl⟩ : ∃ f, fuel = f + 1 := ⟨fuel - 1, by omega⟩
    have h0 : sig m = false := by simpa using hprev 0 (by omega)
    simp only [runContinuousMode, if_true, h0, Bool.not_false, Bool.and_self]
    have hres := ih (m + 1) f (by
        have : m + 1 + k = m + (k + 1) := by omega
        rw [this]; exact hsig)
      (fun j hj => by
        have : m + 1 + j = m + (j + 1) := by omega
        rw [this]; exact hprev (j + 1) (by omega))
      (by omega)
    rw [hres]; omega

/-- C6: in tail mode the stop flag set by the signal handler is read
only at the top of each cycle of `_run_continuous_mode`: when the
first stop signal arrives during cycle k (its batch or its sleep), the
loop still completes cycle k and starts no cycle k+1, finishing with
exactly k+1 completed cycles before proceeding to shutdown. -/
theorem tail_mode_cancellation (sig : Nat → Bool) (k fuel : Nat)
    (hk : sig k = true) (hprev : ∀ j, j < k → sig j = false)
    (hfuel : k + 2 ≤ fuel) :
    runContinuousMode sig fuel 0 true = k + 1 := by
  have h := runContinuousMode_stops sig k 0 fuel (by simpa using hk)
    (fun j hj => by simpa using hprev j hj) hfuel
  simpa using h

/-- Witness for C6: the signal arrives during cycle 1; with fuel 4 the
loop completes exactly 2 cycles. -/
theorem tail_mode_cancellation_witness :
    runContinuousMode (fun j => decide (j = 1)) 4 0 true = 2 :=
  tail_mode_cancellation (fun j => decide (j = 1)) 1 4 (by decide)
    (by intro j hj; have hj0 : j = 0 := by omega
        subst hj0; decide)
    (by omega)

/-- C9: constructing a harness from a run configuration (counts per
kind, tail flag, interval; the `--all` CLI shorthand unset) fails —
before any worker task or provider emission — if and only if no
telemetry kind has a count greater than 0, or tail mode is enabled
with a non-positive interval. -/
theorem configure_validation_iff (a : Args) (hall : a.all = none) :
    (∃ e, configureHarness a = Except.error e) ↔
      ((a.trace_count ≤ 0 ∧ a.metric_count ≤ 0 ∧ a.log_count ≤ 0) ∨
        (a.tail = true ∧ a.interval ≤ 0)) := by
  by_cases h1 : 0 < a.trace_count <;>
    by_cases h2 : 0 < a.metric_count <;>
      by_cases h3 : 0 < a.log_count <;>
        cases h4 : a.tail <;>
          by_cases h5 : a.interval ≤ 0 <;>
            simp [configureHarness, validateArgs, validateCounts, hall,
                  h1, h2, h3, h4, h5, apply_ite Args.trace_count,
                  apply_ite Args.metric_count, apply_ite Args.log_count] <;>
              omega

/-- Witness for C9: the all-zero-counts configuration is rejected. -/
theorem configure_validation_iff_witness :
    ∃ e, configureHarness
        ⟨"localhost:4317", "grpc", "svc", none, 0, 0, 0, false, 1, 4, false⟩ =
      Except.error e :=
  (configure_validation_iff
      ⟨"localhost:4317", "grpc", "svc", none, 0, 0, 0, false, 1, 4, false⟩ rfl).mpr
    (Or.inl ⟨by decide, by decide, by decide⟩)
